import Mathlib

/-! Shallow embedding of the scoring engine and backtest subsystem of the
bazi-lifekline repository (`score_model.py`, `backtest.py`).  Python floats
are modelled as exact rationals, Python dicts as insertion-ordered
association lists (first component is the key), pandas data frames as lists
of records.  Field and function names follow the source. -/

namespace BaziLifekline

/-! Python-style helpers: dictionaries, substring test, `str.strip`. -/

abbrev Dict := List (String × ℚ)

/-- Python `d.get(k, v0)` on a string-keyed dict. -/
def dget (d : Dict) (k : String) (v0 : ℚ) : ℚ :=
  match d.find? (fun p => p.1 == k) with
  | some p => p.2
  | none => v0

/-- Python `k in d` (key membership). -/
def dhas (d : Dict) (k : String) : Bool :=
  d.any (fun p => p.1 == k)

/-- Python `d[k] = v`: overwrite the existing entry in place (insertion order
is preserved), or append a new entry at the end. -/
def dset : Dict → String → ℚ → Dict
  | [], k, v => [(k, v)]
  | p :: rest, k, v => if p.1 == k then (k, v) :: rest else p :: dset rest k v

/-- Key list of a dict, in insertion order. -/
def dkeys (d : Dict) : List String := d.map (fun p => p.1)

/-- Substring test on character lists (Python `needle in hay` for strings). -/
def isSubList (needle : List Char) : List Char → Bool
  | [] => needle.isEmpty
  | c :: rest => needle.isPrefixOf (c :: rest) || isSubList needle rest

/-- Python `needle in hay` for strings: contiguous substring containment. -/
def substr (needle hay : String) : Bool :=
  isSubList needle.toList hay.toList

/-- Python `s.strip()`: drop whitespace from both ends. -/
def pyStrip (s : String) : String :=
  String.mk (((s.toList.dropWhile Char.isWhitespace).reverse.dropWhile
    Char.isWhitespace).reverse)

/-! Static weight tables (`score_model.py` lines 6-86; the module re-defines
the weak/multiplier/relation/pattern/keyword tables a second time at lines
236-303 with identical values, so one copy gives the effective bindings).
Decimal float literals from the source are written as exact rationals. -/

def STRONG_TEN_GOD_WEIGHTS : Dict :=
  [("官", -2/5), ("杀", -2/5), ("印", -3/10), ("枭", -3/10), ("比", 7/20),
   ("劫", 7/20), ("食", 3/10), ("伤", 3/10), ("财", 1/4), ("才", 1/4)]

def WEAK_TEN_GOD_WEIGHTS : Dict :=
  [("官", -7/20), ("杀", -7/20), ("印", 2/5), ("枭", 2/5), ("比", 7/20),
   ("劫", 7/20), ("食", -3/10), ("伤", -3/10), ("财", -1/4), ("才", -1/4)]

def WUXING_MULTIPLIER : Dict :=
  [("生我", 1/5), ("同我", 1/10), ("我克", 1/20), ("克我", -3/20), ("我生", -1/10)]

def RELATION_BASE_SCORE : Dict :=
  [("三合", 6), ("六合", 4), ("半合", 2), ("冲", -5), ("刑", -3), ("害", -2), ("破", -1)]

def SPECIAL_PATTERN_WEIGHTS : List (String × Dict) :=
  [("从旺", [("比", 9/20), ("劫", 9/20), ("食", 7/20), ("伤", 7/20), ("印", -7/20),
             ("枭", -7/20), ("财", 1/5), ("才", 1/5), ("官", -9/20), ("杀", -9/20)]),
   ("专旺", [("比", 1/2), ("劫", 1/2), ("印", -2/5), ("枭", -2/5), ("食", 3/10),
             ("伤", 3/10), ("财", 1/10), ("才", 1/10), ("官", -1/2), ("杀", -1/2)]),
   ("化气", [("食", 2/5), ("伤", 2/5), ("财", 7/20), ("才", 7/20), ("官", -2/5),
             ("杀", -2/5), ("印", -1/5), ("枭", -1/5), ("比", -1/10), ("劫", -1/10)]),
   ("两气成象", [("比", 3/10), ("劫", 3/10), ("印", 1/4), ("枭", 1/4), ("食", 1/4),
             ("伤", 1/4), ("财", -1/4), ("才", -1/4), ("官", -3/10), ("杀", -3/10)])]

def DEFAULT_RISK : Dict :=
  [("刑", 9/10), ("冲", 11/10), ("破", 4/5), ("害", 1), ("劫", 3/5), ("空亡", 6/5)]

def DEFAULT_BOOST : Dict :=
  [("合", 9/10), ("生", 3/5), ("禄", 4/5), ("喜", 3/5), ("财", 7/10), ("官", 4/5), ("贵", 9/10)]

/-! Data model: rows of the liunian (per-year) and dayun (era) data frames.
The `relations` cell of a year row may hold a string, `None`, or a list
(`build_year_signal` branches on `isinstance`). -/

inductive RelField where
  | strVal (s : String)
  | noneVal
  | listVal (l : List String)
deriving DecidableEq, Inhabited, Repr

structure YearRow where
  age : Int
  year : Int
  desc : String
  shishen : String
  wuxing_relation : String
  relations : RelField
deriving DecidableEq, Inhabited, Repr

structure DayunRow where
  start_age : Int
  desc : String
  relations : Option (List String)
deriving DecidableEq, Inhabited, Repr

/-- Stable insertion into a list sorted by an integer key (new element goes
after existing elements with an equal key). -/
def insertBy {α : Type} (key : α → Int) (r : α) : List α → List α
  | [] => [r]
  | x :: xs => if key x ≤ key r then x :: insertBy key r xs else r :: x :: xs

/-- Stable sort by an integer key, processing elements left to right
(models pandas `sort_values`). -/
def sortBy {α : Type} (key : α → Int) (l : List α) : List α :=
  l.foldl (fun acc r => insertBy key r acc) []

/-! Scoring functions (`score_model.py`). -/

/-- Source `_score_keywords`: add each boost-table value whose key token occurs in
the text as a substring, subtract each matching risk-table value. -/
def scoreKeywords (text : String) (boost risk : Dict) : ℚ :=
  let s1 := boost.foldl (fun sc p => if substr p.1 text then sc + p.2 else sc) 0
  risk.foldl (fun sc p => if substr p.1 text then sc - p.2 else sc) s1

/-- Source `compute_strength_index`: weighted mix of the four strength features,
clamped to `[0, 1]`. -/
def compute_strength_index (features : Dict) : ℚ :=
  let weights : Dict := [("得令", 2/5), ("得地", 1/5), ("得势", 1/5), ("通根", 1/5)]
  let score := weights.foldl (fun sc p => sc + dget features p.1 0 * p.2) 0
  max 0 (min 1 score)

/-- Interpolated ten-god table: for each key of the strong table,
`i * strong + (1 - i) * weak` with `i` the clamped strength index
(the fall-through branch of `blend_ten_god_weights`). -/
def interpolatedWeights (strength_index : ℚ) : Dict :=
  let i := max 0 (min 1 strength_index)
  STRONG_TEN_GOD_WEIGHTS.map (fun p =>
    (p.1, i * dget STRONG_TEN_GOD_WEIGHTS p.1 0 + (1 - i) * dget WEAK_TEN_GOD_WEIGHTS p.1 0))

/-- Source `blend_ten_god_weights`: Python tests `if special_pattern:` — a `None`
or empty special-pattern dict is falsy and falls through to interpolation;
a non-empty one is returned unchanged. -/
def blend_ten_god_weights (strength_index : ℚ) (special_pattern : Option Dict) : Dict :=
  match special_pattern with
  | some sp => if sp.isEmpty then interpolatedWeights strength_index else sp
  | none => interpolatedWeights strength_index

/-- Source `score_ten_god`: blended (or overridden) base value for the actor code,
times `1 + wuxing multiplier` (`wuxing_relation or ""` maps `None` to `""`). -/
def score_ten_god (shishen : String) (wuxing_relation : Option String)
    (strength_index : ℚ) (special_pattern : Option Dict) : ℚ :=
  let weights := blend_ten_god_weights strength_index special_pattern
  let base := dget weights shishen 0
  let multi := dget WUXING_MULTIPLIER (wuxing_relation.getD "") 0
  base * (1 + multi)

/-- Source `score_relation`: sum of base scores of the triggered relations, each
scaled by the trigger coefficient; unknown tokens contribute 0. -/
def score_relation (relations : List String) (trigger_coeff : ℚ) : ℚ :=
  relations.foldl (fun total rel => total + dget RELATION_BASE_SCORE rel 0 * trigger_coeff) 0

/-- Source `_locate_dayun`: the last row, in `start_age` order, whose `start_age`
is `≤ age`; `None` when the frame is empty or no row qualifies. -/
def locate_dayun (age : Int) (dayun_df : List DayunRow) : Option DayunRow :=
  if dayun_df.isEmpty then none
  else ((sortBy (fun d => d.start_age) dayun_df).filter
    (fun d => decide (d.start_age ≤ age))).getLast?

/-- The `relations` cell normalisation in `build_year_signal`: a string is
split on `/` and blanks with empty pieces dropped, `None` becomes `[]`,
a list is taken as is. -/
def relationsOfCell : RelField → List String
  | RelField.strVal s =>
      (((s.splitOn "/").map (fun token => (token.splitOn " ").filter (fun p => p != ""))).flatten)
  | RelField.noneVal => []
  | RelField.listVal l => l

/-- A year-signal series: pandas `pd.Series(signals)` built from a dict keyed
by year, in insertion order. -/
abbrev YearSignal := List (Int × ℚ)

/-- Lookup of a year in a signal series (`Series.map` semantics: missing key
gives `None`, i.e. NaN). -/
def ysGet (s : YearSignal) (y : Int) : Option ℚ :=
  (s.find? (fun p => p.1 == y)).map (fun p => p.2)

/-- Python `signals[year] = v` on the dict backing the series. -/
def ysSet : YearSignal → Int → ℚ → YearSignal
  | [], y, v => [(y, v)]
  | p :: rest, y, v => if p.1 == y then (y, v) :: rest else p :: ysSet rest y v

/-- Per-row body of the `build_year_signal` loop (at zero-based position
`idx` of the year-sorted frame). `cycle` is assumed positive, as the
ScoringConfig invariant requires (Python would raise `ZeroDivisionError`
on `cycle = 0`). -/
def yearSignalRow (dayun_df : List DayunRow) (base_up base_down : ℚ) (cycle : Int)
    (boost risk : Dict) (dayun_risk_weight strength_index : ℚ)
    (special_pattern : Option Dict) (relation_trigger ten_god_weight : ℚ)
    (idx : Nat) (row : YearRow) : ℚ :=
  let cyc := if (((idx : Int).emod cycle : ℚ) < (cycle : ℚ) / 2) then base_up else -base_down
  let desc := row.desc
  let dayun := locate_dayun row.age dayun_df
  let dayun_desc := match dayun with | some d => d.desc | none => ""
  let keyword_score := scoreKeywords (desc ++ " " ++ dayun_desc) boost risk
  let shishen := pyStrip row.shishen
  let wuxing_relation :=
    let w := pyStrip row.wuxing_relation
    if w = "" then none else some w
  let ten_score :=
    if shishen ≠ "" then
      score_ten_god shishen wuxing_relation strength_index special_pattern * ten_god_weight
    else 0
  let relations := relationsOfCell row.relations
  let relations :=
    match dayun with
    | some d => match d.relations with | some dr => relations ++ dr | none => relations
    | none => relations
  let relation_score := if relations.isEmpty then 0 else score_relation relations relation_trigger
  let keyword_score :=
    if risk.any (fun p => substr p.1 dayun_desc) then keyword_score - dayun_risk_weight
    else keyword_score
  cyc + keyword_score + ten_score + relation_score

/-- Source `build_year_signal`: sort the year rows ascending, compute one scalar per
row, collect them in a dict keyed by year (`boost or DEFAULT_BOOST` treats a
falsy — absent or empty — table as the default). -/
def build_year_signal (liunian_df : List YearRow) (dayun_df : List DayunRow)
    (base_up base_down : ℚ) (cycle : Int) (boost risk : Option Dict)
    (dayun_risk_weight strength_index : ℚ) (special_pattern : Option Dict)
    (relation_trigger ten_god_weight : ℚ) : YearSignal :=
  let boostT := match boost with
    | some b => if b.isEmpty then DEFAULT_BOOST else b
    | none => DEFAULT_BOOST
  let riskT := match risk with
    | some r => if r.isEmpty then DEFAULT_RISK else r
    | none => DEFAULT_RISK
  let rows := sortBy (fun r => r.year) liunian_df
  rows.enum.foldl
    (fun sigs p =>
      ysSet sigs p.2.year
        (yearSignalRow dayun_df base_up base_down cycle boostT riskT dayun_risk_weight
          strength_index special_pattern relation_trigger ten_god_weight p.1 p.2))
    []

/-! Life-index compounding and decade aggregation. -/

/-- One output row of `build_life_index`: original record, back-filled signal
value and compounded index. -/
structure LifeRow where
  row : YearRow
  year_signal : ℚ
  life_index : ℚ
deriving DecidableEq, Inhabited, Repr

/-- The compounding loop of `build_life_index`: starting from `v = base`,
each row updates `v := v * (1 + signal / 100)` and records it. -/
def compound (base : ℚ) : List (YearRow × ℚ) → List LifeRow
  | [] => []
  | p :: rest =>
      { row := p.1, year_signal := p.2, life_index := base * (1 + p.2 / 100) } ::
        compound (base * (1 + p.2 / 100)) rest

/-- Source `build_life_index`: sort rows by year, back-fill each year's signal with
`Series.map` + `fillna(0.0)` (missing year → 0), then compound from `base`. -/
def build_life_index (liunian_df : List YearRow) (year_signal : YearSignal)
    (base : ℚ) : List LifeRow :=
  compound base
    ((sortBy (fun r => r.year) liunian_df).map (fun r => (r, (ysGet year_signal r.year).getD 0)))

/-- One OHLC bar of `to_decade_ohlc`.  The source column `open` is a Lean
keyword, rendered `openV`. -/
structure DecadeBar where
  decade : Int
  openV : ℚ
  high : ℚ
  low : ℚ
  close : ℚ
deriving DecidableEq, Inhabited, Repr

/-- Maximum of a value list (groups below are never empty). -/
def qmax : List ℚ → ℚ
  | [] => 0
  | x :: xs => xs.foldl max x

/-- Minimum of a value list (groups below are never empty). -/
def qmin : List ℚ → ℚ
  | [] => 0
  | x :: xs => xs.foldl min x

/-- Adjacent deduplication of an already grouped key list. -/
def dedupAdj : List Int → List Int
  | [] => []
  | [x] => [x]
  | x :: y :: rest => if x == y then dedupAdj (y :: rest) else x :: dedupAdj (y :: rest)

/-- Python `year // 10 * 10` (floor division). -/
def decadeBucket (y : Int) : Int := (Int.fdiv y 10) * 10

/-- Source `to_decade_ohlc`: sort by year, bucket by decade, and per bucket (pandas
`groupby` sorts keys ascending; our buckets of a year-sorted list are already
non-decreasing) emit first/max/min/last of `life_index`. -/
def to_decade_ohlc (life_df : List LifeRow) : List DecadeBar :=
  let sorted := sortBy (fun lr => lr.row.year) life_df
  let buckets := dedupAdj (sorted.map (fun lr => decadeBucket lr.row.year))
  buckets.map (fun b =>
    let vals := (sorted.filter (fun lr => decadeBucket lr.row.year == b)).map
      (fun lr => lr.life_index)
    { decade := b, openV := vals.headD 0, high := qmax vals, low := qmin vals,
      close := vals.getLastD 0 })

/-! Backtest module (`backtest.py`). -/

structure Annotation where
  year : Int
  label : String
  outcome : String
  intensity : ℚ
deriving DecidableEq, Inhabited, Repr

def POSITIVE_TOKENS : List String := ["喜", "正", "好", "升", "成功"]

def NEGATIVE_TOKENS : List String := ["悲", "负", "跌", "裁", "失"]

/-- Source `Annotation.sentiment`: positive keyword (on the stripped outcome text)
wins, then negative keyword, then the sign of `intensity`. -/
def Annotation.sentiment (a : Annotation) : ℚ :=
  let outcome := pyStrip a.outcome
  if POSITIVE_TOKENS.any (fun k => substr k outcome) then 1
  else if NEGATIVE_TOKENS.any (fun k => substr k outcome) then -1
  else if a.intensity ≥ 0 then 1 else -1

/-- Source `_clamp` with its default bounds `[-0.8, 0.8]`. -/
def pclamp (value : ℚ) : ℚ := max (-4/5) (min (4/5) value)

/-- One iteration of the `tune_ten_god_weights` loop over the annotation
list: accumulator is (strong table, weak table, adjustment records). -/
def tuneStep (liunian_df : List YearRow) (learning_rate : ℚ)
    (acc : Dict × Dict × List (String × ℚ)) (ann : Annotation) :
    Dict × Dict × List (String × ℚ) :=
  match liunian_df.find? (fun r => r.year == ann.year) with
  | none => acc
  | some row =>
    let shishen := pyStrip row.shishen
    if shishen = "" then acc
    else
      let direction := ann.sentiment * ann.intensity
      let delta := learning_rate * direction
      if dhas acc.1 shishen then
        (dset acc.1 shishen (pclamp (dget acc.1 shishen 0 + delta)),
         dset acc.2.1 shishen (pclamp (dget acc.2.1 shishen 0 + delta)),
         acc.2.2 ++ [(shishen, delta)])
      else acc

/-- Source `tune_ten_god_weights`: start from copies of the default strong/weak
tables and fold the annotation list. -/
def tune_ten_god_weights (liunian_df : List YearRow) (annotations : List Annotation)
    (learning_rate : ℚ) : Dict × Dict × List (String × ℚ) :=
  annotations.foldl (tuneStep liunian_df learning_rate)
    (STRONG_TEN_GOD_WEIGHTS, WEAK_TEN_GOD_WEIGHTS, [])

structure BacktestConfig where
  base_up : ℚ
  base_down : ℚ
  cycle : Int
  keyword_boost : ℚ
  keyword_risk : ℚ
  dayun_drag : ℚ
  strength_index : ℚ
  special_pattern : Option Dict
  relation_trigger : ℚ
  ten_god_weight : ℚ
  base : ℚ
deriving Repr

structure BacktestResult where
  tuned_life : List LifeRow
  strong_weights : Dict
  weak_weights : Dict
  adjustments : List (String × ℚ)
deriving DecidableEq, Repr

/-- Parameter names of `build_year_signal` as defined in `score_model.py`
(lines 389-402). -/
def buildYearSignalParamNames : List String :=
  ["liunian_df", "dayun_df", "base_up", "base_down", "cycle", "boost", "risk",
   "dayun_risk_weight", "strength_index", "special_pattern", "relation_trigger",
   "ten_god_weight"]

/-- Keyword-argument names `apply_feedback_loop` passes to
`build_year_signal` at its call site (`backtest.py` lines 126-141). -/
def applyFeedbackLoopCallKeywords : List String :=
  ["base_up", "base_down", "cycle", "boost", "risk", "dayun_risk_weight",
   "strength_index", "special_pattern", "relation_trigger", "ten_god_weight",
   "strong_weights", "weak_weights"]

/-- Source `apply_feedback_loop`.  The guard models CPython keyword binding at the
`build_year_signal` call: the call succeeds only if every keyword used at the
call site names a parameter of the callee; otherwise the interpreter raises
`TypeError`.  In the (hypothetical) bound branch the callee body as written
never reads any extra keyword, so it runs on its declared parameters. -/
def apply_feedback_loop (liunian_df : List YearRow) (dayun_df : List DayunRow)
    (annotations : List Annotation) (config : BacktestConfig) (learning_rate : ℚ) :
    Except String BacktestResult :=
  let tuned := tune_ten_god_weights liunian_df annotations learning_rate
  if applyFeedbackLoopCallKeywords.all (fun k => buildYearSignalParamNames.contains k) then
    let year_signal := build_year_signal liunian_df dayun_df config.base_up config.base_down
      config.cycle
      (some (DEFAULT_BOOST.map (fun p => (p.1, p.2 * config.keyword_boost))))
      (some (DEFAULT_RISK.map (fun p => (p.1, p.2 * config.keyword_risk))))
      config.dayun_drag config.strength_index config.special_pattern
      config.relation_trigger config.ten_god_weight
    Except.ok
      { tuned_life := build_life_index liunian_df year_signal config.base,
        strong_weights := tuned.1, weak_weights := tuned.2.1, adjustments := tuned.2.2 }
  else
    Except.error
      "TypeError: build_year_signal() got an unexpected keyword argument strong_weights"

/-! Heap model for the mutation claim: Python dict objects live in a store
addressed by allocation order.  `dict(x)` allocates a fresh cell holding a
copy of the contents of `x`; `d[k] = v` updates a cell in place.  This lets
the embedding state that `tune_ten_god_weights` writes only to the two cells
it allocates and never to the cells of the module-level default tables. -/

abbrev Store := List Dict

/-- Contents of the dict object at address `a`. -/
def storeRead (st : Store) (a : Nat) : Dict := st.getD a []

/-- Python `d[k] = v` on the dict object at address `a`. -/
def setItemAt (st : Store) (a : Nat) (k : String) (v : ℚ) : Store :=
  st.set a (dset (storeRead st a) k v)

/-- Python `dict(x)`: allocate a fresh cell holding a copy of `x`. -/
def allocStore (st : Store) (d : Dict) : Store × Nat := (st ++ [d], st.length)

/-- Store-level version of the `tune_ten_god_weights` loop body: the strong
and weak working tables are the dict objects at `sAddr` and `wAddr`. -/
def tuneStepStore (liunian_df : List YearRow) (learning_rate : ℚ) (sAddr wAddr : Nat)
    (acc : Store × List (String × ℚ)) (ann : Annotation) : Store × List (String × ℚ) :=
  match liunian_df.find? (fun r => r.year == ann.year) with
  | none => acc
  | some row =>
    let shishen := pyStrip row.shishen
    if shishen = "" then acc
    else
      let direction := ann.sentiment * ann.intensity
      let delta := learning_rate * direction
      if dhas (storeRead acc.1 sAddr) shishen then
        let st1 := setItemAt acc.1 sAddr shishen
          (pclamp (dget (storeRead acc.1 sAddr) shishen 0 + delta))
        let st2 := setItemAt st1 wAddr shishen
          (pclamp (dget (storeRead st1 wAddr) shishen 0 + delta))
        (st2, acc.2 ++ [(shishen, delta)])
      else acc

/-- Store-level `tune_ten_god_weights`: copy the default tables (which live
at `strongAddr` / `weakAddr`) into two fresh cells, then fold the annotation
list over those cells.  Returns the final store, the addresses of the two
working tables, and the adjustment records. -/
def tune_ten_god_weights_store (liunian_df : List YearRow) (annotations : List Annotation)
    (learning_rate : ℚ) (strongAddr weakAddr : Nat) (st : Store) :
    Store × Nat × Nat × List (String × ℚ) :=
  let a1 := allocStore st (storeRead st strongAddr)
  let a2 := allocStore a1.1 (storeRead a1.1 weakAddr)
  let res := annotations.foldl (tuneStepStore liunian_df learning_rate a1.2 a2.2) (a2.1, [])
  (res.1, a1.2, a2.2, res.2)

/-! Characterisation used for the adjustment-record claim. -/

/-- The adjustment record a single annotation generates under the Feedback
Tuner: `none` when the year matches no row, when the matched row's stripped
actor code is empty, or when the code is not a key of the strong table. -/
def annAdjustment (liunian_df : List YearRow) (learning_rate : ℚ) (a : Annotation) :
    Option (String × ℚ) :=
  match liunian_df.find? (fun r => r.year == a.year) with
  | none => none
  | some row =>
    let s := pyStrip row.shishen
    if s = "" then none
    else if dhas STRONG_TEN_GOD_WEIGHTS s then
      some (s, learning_rate * (a.sentiment * a.intensity))
    else none

/-! Concrete fixtures used by counterexamples and witnesses. -/

/-- A year record with blank description and no relations. -/
def mkRow (a y : Int) (sh : String) : YearRow :=
  { age := a, year := y, desc := "", shishen := sh, wuxing_relation := "",
    relations := RelField.listVal [] }

def rows2018to2023 : List YearRow :=
  [mkRow 30 2018 "", mkRow 31 2019 "", mkRow 32 2020 "", mkRow 33 2021 "",
   mkRow 34 2022 "", mkRow 35 2023 ""]

def zeroSig2018to2023 : YearSignal :=
  [(2018, 0), (2019, 0), (2020, 0), (2021, 0), (2022, 0), (2023, 0)]

def rows3 : List YearRow := [mkRow 40 2020 "", mkRow 41 2021 "", mkRow 42 2022 ""]

def sig3 : YearSignal := [(2020, 10), (2021, -5), (2022, 0)]

def zeroSig3 : YearSignal := [(2020, 0), (2021, 0), (2022, 0)]

def onlySig2020 : YearSignal := [(2020, 10)]

def dupRows : List YearRow := [mkRow 40 2020 "", mkRow 40 2020 ""]

def rowX : YearRow := mkRow 40 2020 "X"

def annPos : Annotation := { year := 2020, label := "", outcome := "好", intensity := 1 }

def rowGuan : YearRow := mkRow 41 2021 "官"

def annNeg : Annotation := { year := 2021, label := "", outcome := "裁员", intensity := 1 }

def annFar : Annotation := { year := 1999, label := "", outcome := "好", intensity := 1 }

def spSample : Dict := [("官", 1/2)]

/-! Helper lemmas. -/

theorem insertBy_length {α : Type} (key : α → Int) (r : α) (l : List α) :
    (insertBy key r l).length = l.length + 1 := by
  induction l with
  | nil => rfl
  | cons x xs ih =>
    unfold insertBy
    by_cases h : key x ≤ key r
    · simp [h, ih]
    · simp [h]

theorem sortBy_foldl_length {α : Type} (key : α → Int) (l acc : List α) :
    (l.foldl (fun acc r => insertBy key r acc) acc).length = acc.length + l.length := by
  induction l generalizing acc with
  | nil => simp
  | cons x xs ih => simp [List.foldl_cons, ih, insertBy_length]; omega

theorem sortBy_length {α : Type} (key : α → Int) (l : List α) :
    (sortBy key l).length = l.length := by
  unfold sortBy
  simpa using sortBy_foldl_length key l []

theorem compound_length (base : ℚ) (ps : List (YearRow × ℚ)) :
    (compound base ps).length = ps.length := by
  induction ps generalizing base with
  | nil => rfl
  | cons p rest ih => simp [compound, ih]

theorem compound_getD_fields (base : ℚ) (ps : List (YearRow × ℚ)) (i : Nat)
    (h : i < ps.length) :
    ((compound base ps).getD i default).row = (ps.getD i default).1 ∧
    ((compound base ps).getD i default).year_signal = (ps.getD i default).2 := by
  induction ps generalizing base i with
  | nil => simp at h
  | cons p rest ih =>
    cases i with
    | zero => simp [compound]
    | succ k => simpa [compound] using ih (base * (1 + p.2 / 100)) k (by simpa using h)

theorem compound_recurrence (base : ℚ) (ps : List (YearRow × ℚ)) (i : Nat)
    (h : i < ps.length) :
    ((compound base ps).getD i default).life_index =
      (if i = 0 then base else ((compound base ps).getD (i - 1) default).life_index) *
        (1 + ((compound base ps).getD i default).year_signal / 100) := by
  induction ps generalizing base i with
  | nil => simp at h
  | cons p rest ih =>
    cases i with
    | zero => simp [compound]
    | succ k =>
      cases k with
      | zero =>
        have h1 : 0 < rest.length := by simpa using h
        simpa [compound] using ih (base * (1 + p.2 / 100)) 0 h1
      | succ m =>
        have h2 : m + 1 < rest.length := by simpa using h
        simpa [compound] using ih (base * (1 + p.2 / 100)) (m + 1) h2

/-! Claim theorems. -/

/-- Claim C2, counterexample: `build_life_index` does not fail fast on
duplicate year values or on a non-positive base — at both concrete inputs it
returns an ordinary compounded series instead of signalling an error. -/
theorem build_life_index_no_validation :
    build_life_index dupRows onlySig2020 100 =
      [{ row := mkRow 40 2020 "", year_signal := 10, life_index := 110 },
       { row := mkRow 40 2020 "", year_signal := 10, life_index := 121 }] ∧
    build_life_index [mkRow 40 2020 ""] onlySig2020 (-5) =
      [{ row := mkRow 40 2020 "", year_signal := 10, life_index := -11/2 }] := by
  constructor <;>
    norm_num [build_life_index, compound, sortBy, insertBy, ysGet, dupRows,
      onlySig2020, mkRow]

/-- Claim C2, amended: the index-building entry point performs no input
validation at all — for every input, including duplicate years and a
non-positive base, it returns one output row per input record and never
signals an error. -/
theorem build_life_index_never_fails (l : List YearRow) (s : YearSignal) (b : ℚ) :
    (build_life_index l s b).length = l.length := by
  unfold build_life_index
  rw [compound_length, List.length_map, sortBy_length]

/-- Claim C3, counterexample: for years 2018-2023 with all signals 0 and base
100, the decade aggregation emits two bars (buckets 2010 and 2020), not a
single bar for bucket 2010. -/
theorem decade_bars_2018_2023_two_buckets :
    (to_decade_ohlc (build_life_index rows2018to2023 zeroSig2018to2023 100)).map
      (fun b => b.decade) = [2010, 2020] ∧
    (to_decade_ohlc (build_life_index rows2018to2023 zeroSig2018to2023 100)).length = 2 := by
  constructor <;>
    norm_num [build_life_index, compound, sortBy, insertBy, ysGet, rows2018to2023,
      zeroSig2018to2023, mkRow, to_decade_ohlc, dedupAdj, decadeBucket, Int.fdiv,
      qmax, qmin, max_def, min_def]

/-- Claim C3, amended: for years 2018-2023 with all signals 0 and base 100,
the life index is constantly 100 and the decade aggregation emits exactly two
bars, for buckets 2010 and 2020, each with open = high = low = close = 100. -/
theorem decade_bars_2018_2023 :
    (build_life_index rows2018to2023 zeroSig2018to2023 100).map (fun lr => lr.life_index) =
      [100, 100, 100, 100, 100, 100] ∧
    to_decade_ohlc (build_life_index rows2018to2023 zeroSig2018to2023 100) =
      [{ decade := 2010, openV := 100, high := 100, low := 100, close := 100 },
       { decade := 2020, openV := 100, high := 100, low := 100, close := 100 }] := by
  constructor <;>
    norm_num [build_life_index, compound, sortBy, insertBy, ysGet, rows2018to2023,
      zeroSig2018to2023, mkRow, to_decade_ohlc, dedupAdj, decadeBucket, Int.fdiv,
      qmax, qmin, max_def, min_def]

theorem ysGet_zero (s : YearSignal) (h : ∀ p ∈ s, p.2 = 0) (y : Int) :
    (ysGet s y).getD 0 = 0 := by
  unfold ysGet
  cases hf : s.find? (fun p => p.1 == y) with
  | none => simp
  | some p =>
    exact h p (List.mem_of_find?_eq_some hf)

theorem compound_zero (b : ℚ) (ps : List (YearRow × ℚ)) (h : ∀ p ∈ ps, p.2 = 0) :
    ∀ lr ∈ compound b ps, lr.life_index = b := by
  induction ps generalizing b with
  | nil => intro lr hlr; exact absurd hlr (List.not_mem_nil lr)
  | cons p rest ih =>
    intro lr hlr
    have hp : p.2 = 0 := h p (by simp)
    have hb : b * (1 + p.2 / 100) = b := by rw [hp]; norm_num
    rw [compound, hb] at hlr
    rcases List.mem_cons.mp hlr with rfl | hmem
    · rfl
    · exact ih b (fun q hq => h q (List.mem_cons_of_mem _ hq)) lr hmem

/-- Claim C6: the Life-Index Compounder satisfies
`index[0] = base * (1 + s_0/100)`, `index[i] = index[i-1] * (1 + s_i/100)`;
for signals (10, -5, 0) from base 100 it yields [110, 104.5, 104.5]; and with
all signals 0 the series is constantly `base`. -/
theorem life_index_compounding (l : List YearRow) (s : YearSignal) (b : ℚ) :
    (∀ i, i < (build_life_index l s b).length →
      ((build_life_index l s b).getD i default).life_index =
        (if i = 0 then b else ((build_life_index l s b).getD (i - 1) default).life_index) *
          (1 + ((build_life_index l s b).getD i default).year_signal / 100)) ∧
    ((build_life_index rows3 sig3 100).map (fun lr => lr.life_index) =
      [110, 209/2, 209/2]) ∧
    ((∀ p ∈ s, p.2 = 0) → ∀ lr ∈ build_life_index l s b, lr.life_index = b) := by
  refine ⟨?_, ?_, ?_⟩
  · intro i hi
    unfold build_life_index at hi ⊢
    rw [compound_length] at hi
    exact compound_recurrence b _ i hi
  · norm_num [build_life_index, compound, sortBy, insertBy, ysGet, rows3, sig3, mkRow]
  · intro h lr hlr
    unfold build_life_index at hlr
    refine compound_zero b _ ?_ lr hlr
    intro q hq
    rcases List.mem_map.mp hq with ⟨r, _, rfl⟩
    exact ysGet_zero s h r.year

/-- Witness for C6: the recurrence at position 1 of the (10, -5, 0) example,
and the constant series for an all-zero signal list. -/
theorem life_index_compounding_witness :
    (((build_life_index rows3 sig3 100).getD 1 default).life_index =
      (if (1 : Nat) = 0 then (100 : ℚ)
       else ((build_life_index rows3 sig3 100).getD (1 - 1) default).life_index) *
        (1 + ((build_life_index rows3 sig3 100).getD 1 default).year_signal / 100)) ∧
    (∀ lr ∈ build_life_index rows3 zeroSig3 100, lr.life_index = 100) :=
  ⟨(life_index_compounding rows3 sig3 100).1 1
      (by
        unfold build_life_index
        rw [compound_length, List.length_map, sortBy_length]
        norm_num [rows3]),
   (life_index_compounding rows3 zeroSig3 100).2.2
      (by intro p hp; simp [zeroSig3] at hp; rcases hp with rfl | rfl | rfl <;> rfl)⟩

theorem pairs_getD (l : List YearRow) (s : YearSignal) (i : Nat) (h : i < l.length) :
    ((l.map (fun r => (r, (ysGet s r.year).getD 0))).getD i default) =
      (l.getD i default, (ysGet s ((l.getD i default).year)).getD 0) := by
  induction l generalizing i with
  | nil => simp at h
  | cons r rest ih =>
    cases i with
    | zero => simp
    | succ k => simpa using ih k (by simpa using h)

/-- Claim C10: a YearRecord whose year is missing from the signal mapping is
back-filled with signal 0, contributes a multiplicative factor of 1 (its
index value equals the previous one, or the base at position 0), and still
appears as a row — the output has one row per input record. -/
theorem missing_year_signal_neutral (l : List YearRow) (s : YearSignal) (b : ℚ) (i : Nat)
    (hi : i < (build_life_index l s b).length)
    (hmiss : ysGet s (((build_life_index l s b).getD i default).row.year) = none) :
    ((build_life_index l s b).getD i default).year_signal = 0 ∧
    ((build_life_index l s b).getD i default).life_index =
      (if i = 0 then b else ((build_life_index l s b).getD (i - 1) default).life_index) ∧
    (build_life_index l s b).length = l.length := by
  unfold build_life_index at hi hmiss ⊢
  rw [compound_length, List.length_map] at hi
  have hps : i < ((sortBy (fun r => r.year) l).map
      (fun r => (r, (ysGet s r.year).getD 0))).length := by
    rw [List.length_map]; exact hi
  have hrow := (compound_getD_fields b _ i hps).1
  have hsigf := (compound_getD_fields b _ i hps).2
  have hpair := pairs_getD (sortBy (fun r => r.year) l) s i hi
  have hyear : (((sortBy (fun r => r.year) l).map
      (fun r => (r, (ysGet s r.year).getD 0))).getD i default).1 =
      (sortBy (fun r => r.year) l).getD i default := by rw [hpair]
  have hzero :
      ((compound b ((sortBy (fun r => r.year) l).map
        (fun r => (r, (ysGet s r.year).getD 0)))).getD i default).year_signal = 0 := by
    rw [hsigf, hpair]
    rw [hrow, hyear] at hmiss
    simp only [List.getD_eq_getElem?_getD] at hmiss ⊢
    simp [hmiss]
  refine ⟨hzero, ?_, ?_⟩
  · have hrec := compound_recurrence b _ i hps
    rw [hzero] at hrec
    simpa using hrec
  · rw [compound_length, List.length_map, sortBy_length]

/-- Witness for C10: with rows for 2020-2022 and a signal list holding only
2020, the 2021 row (output position 1) has signal 0 and keeps the previous
index value. -/
theorem missing_year_signal_neutral_witness :
    ((build_life_index rows3 onlySig2020 100).getD 1 default).year_signal = 0 ∧
    ((build_life_index rows3 onlySig2020 100).getD 1 default).life_index =
      (if (1 : Nat) = 0 then (100 : ℚ)
       else ((build_life_index rows3 onlySig2020 100).getD (1 - 1) default).life_index) ∧
    (build_life_index rows3 onlySig2020 100).length = rows3.length :=
  missing_year_signal_neutral rows3 onlySig2020 100 1
    (by
      unfold build_life_index
      rw [compound_length, List.length_map, sortBy_length]
      norm_num [rows3])
    (by norm_num [build_life_index, compound, sortBy, insertBy, ysGet, rows3,
      onlySig2020, mkRow])

/-- Claim C1: `apply_feedback_loop` never returns a rebuilt series — its call
to `build_year_signal` passes the keyword arguments `strong_weights` and
`weak_weights`, which are not parameters of `build_year_signal`, so every
invocation raises `TypeError` instead of rebuilding the pipeline with the
tuned tables. -/
theorem apply_feedback_loop_always_raises (l : List YearRow) (d : List DayunRow)
    (anns : List Annotation) (config : BacktestConfig) (lr : ℚ) :
    apply_feedback_loop l d anns config lr =
      Except.error
        "TypeError: build_year_signal() got an unexpected keyword argument strong_weights" :=
  rfl

theorem pclamp_bounds (v : ℚ) : -4/5 ≤ pclamp v ∧ pclamp v ≤ 4/5 := by
  unfold pclamp
  exact ⟨le_max_left _ _, max_le (by norm_num) (min_le_left _ _)⟩

theorem dset_bounds (d : Dict) (k : String) (v : ℚ)
    (hd : ∀ p ∈ d, -4/5 ≤ p.2 ∧ p.2 ≤ 4/5) (hv : -4/5 ≤ v ∧ v ≤ 4/5) :
    ∀ p ∈ dset d k v, -4/5 ≤ p.2 ∧ p.2 ≤ 4/5 := by
  induction d with
  | nil =>
    intro p hp
    simp [dset] at hp
    rw [hp]
    exact hv
  | cons q rest ih =>
    intro p hp
    cases hqk : (q.1 == k) with
    | true =>
      simp only [dset, hqk, if_true] at hp
      rcases List.mem_cons.mp hp with rfl | hmem
      · exact hv
      · exact hd p (List.mem_cons_of_mem _ hmem)
    | false =>
      simp only [dset, hqk, Bool.false_eq_true, if_false] at hp
      rcases List.mem_cons.mp hp with rfl | hmem
      · exact hd p (by simp)
      · exact ih (fun r hr => hd r (List.mem_cons_of_mem _ hr)) p hmem

theorem tuneStep_bounds (l : List YearRow) (lr : ℚ) (acc : Dict × Dict × List (String × ℚ))
    (a : Annotation) (h1 : ∀ p ∈ acc.1, -4/5 ≤ p.2 ∧ p.2 ≤ 4/5)
    (h2 : ∀ p ∈ acc.2.1, -4/5 ≤ p.2 ∧ p.2 ≤ 4/5) :
    (∀ p ∈ (tuneStep l lr acc a).1, -4/5 ≤ p.2 ∧ p.2 ≤ 4/5) ∧
    (∀ p ∈ (tuneStep l lr acc a).2.1, -4/5 ≤ p.2 ∧ p.2 ≤ 4/5) := by
  unfold tuneStep
  cases hf : l.find? (fun r => r.year == a.year) with
  | none => exact ⟨h1, h2⟩
  | some row =>
    by_cases hsh : pyStrip row.shishen = ""
    · simp only [hsh, if_true]
      exact ⟨h1, h2⟩
    · simp only [hsh, if_false]
      cases hdh : dhas acc.1 (pyStrip row.shishen) with
      | false => simp only [hdh, Bool.false_eq_true, if_false]; exact ⟨h1, h2⟩
      | true =>
        simp only [hdh, if_true]
        exact ⟨dset_bounds _ _ _ h1 (pclamp_bounds _), dset_bounds _ _ _ h2 (pclamp_bounds _)⟩

theorem tuneFold_bounds (l : List YearRow) (lr : ℚ) (anns : List Annotation)
    (acc : Dict × Dict × List (String × ℚ))
    (h1 : ∀ p ∈ acc.1, -4/5 ≤ p.2 ∧ p.2 ≤ 4/5)
    (h2 : ∀ p ∈ acc.2.1, -4/5 ≤ p.2 ∧ p.2 ≤ 4/5) :
    (∀ p ∈ (anns.foldl (tuneStep l lr) acc).1, -4/5 ≤ p.2 ∧ p.2 ≤ 4/5) ∧
    (∀ p ∈ (anns.foldl (tuneStep l lr) acc).2.1, -4/5 ≤ p.2 ∧ p.2 ≤ 4/5) := by
  induction anns generalizing acc with
  | nil => exact ⟨h1, h2⟩
  | cons a rest ih =>
    rw [List.foldl_cons]
    have hb := tuneStep_bounds l lr acc a h1 h2
    exact ih _ hb.1 hb.2

theorem STRONG_bounds : ∀ p ∈ STRONG_TEN_GOD_WEIGHTS, -4/5 ≤ p.2 ∧ p.2 ≤ 4/5 := by
  intro p hp
  simp [STRONG_TEN_GOD_WEIGHTS] at hp
  rcases hp with rfl | rfl | rfl | rfl | rfl | rfl | rfl | rfl | rfl | rfl <;> norm_num

theorem WEAK_bounds : ∀ p ∈ WEAK_TEN_GOD_WEIGHTS, -4/5 ≤ p.2 ∧ p.2 ≤ 4/5 := by
  intro p hp
  simp [WEAK_TEN_GOD_WEIGHTS] at hp
  rcases hp with rfl | rfl | rfl | rfl | rfl | rfl | rfl | rfl | rfl | rfl <;> norm_num

/-- Claim C5: after the Feedback Tuner runs (each call starts from a fresh
copy of the defaults, so any sequence of calls reduces to a single call),
every entry of the tuned strong and weak tables lies in [-0.8, 0.8],
whatever the annotations and the learning rate. -/
theorem tuned_weights_clamped (l : List YearRow) (anns : List Annotation) (lr : ℚ) :
    (∀ p ∈ (tune_ten_god_weights l anns lr).1, -4/5 ≤ p.2 ∧ p.2 ≤ 4/5) ∧
    (∀ p ∈ (tune_ten_god_weights l anns lr).2.1, -4/5 ≤ p.2 ∧ p.2 ≤ 4/5) := by
  unfold tune_ten_god_weights
  exact tuneFold_bounds l lr anns _ STRONG_bounds WEAK_bounds

/-- Witness for C5 at the empty annotation list and the default 官 entry. -/
theorem tuned_weights_clamped_witness :
    (-4/5 : ℚ) ≤ (-2/5 : ℚ) ∧ (-2/5 : ℚ) ≤ 4/5 :=
  (tuned_weights_clamped [] [] 0).1 ("官", -2/5)
    (by simp [tune_ten_god_weights, STRONG_TEN_GOD_WEIGHTS])

/-- Claim C7, counterexample: when the supplied special-pattern table is the
empty dict, the Actor Scorer is not independent of the strength index —
Python treats an empty dict as falsy and falls back to interpolation.  For
actor code 官 the output at strength 0 is -7/20 and at strength 1 is -2/5,
and neither is the 0 that the supplied table's missing-key lookup requires. -/
theorem special_pattern_empty_not_skipped :
    score_ten_god "官" none 0 (some []) = -7/20 ∧
    score_ten_god "官" none 1 (some []) = -2/5 := by
  have hw : dget WUXING_MULTIPLIER "" 0 = 0 := rfl
  have hg : ∀ i : ℚ, dget (interpolatedWeights i) "官" 0 =
      max 0 (min 1 i) * (-2/5) + (1 - max 0 (min 1 i)) * (-7/20) := fun i => rfl
  constructor <;>
    norm_num [score_ten_god, blend_ten_god_weights, hw, hg, max_def, min_def]

/-- Claim C7, amended: whenever a NON-EMPTY special-pattern table is
supplied, the Actor Scorer output is the table's entry for the actor code
(0 when missing) times the elemental multiplier, independent of the strength
index. -/
theorem special_pattern_override (sp : Dict) (hne : sp ≠ []) (code : String)
    (rel : Option String) (i j : ℚ) :
    score_ten_god code rel i (some sp) =
      dget sp code 0 * (1 + dget WUXING_MULTIPLIER (rel.getD "") 0) ∧
    score_ten_god code rel i (some sp) = score_ten_god code rel j (some sp) := by
  have he : sp.isEmpty = false := by
    cases sp with
    | nil => exact absurd rfl hne
    | cons a rest => rfl
  constructor <;> simp [score_ten_god, blend_ten_god_weights, he]

/-- Witness for C7 with a one-entry pattern table at strengths 0 and 1. -/
theorem special_pattern_override_witness :
    (score_ten_god "官" none 0 (some spSample) =
      dget spSample "官" 0 * (1 + dget WUXING_MULTIPLIER ((none : Option String).getD "") 0)) ∧
    score_ten_god "官" none 0 (some spSample) = score_ten_god "官" none 1 (some spSample) :=
  special_pattern_override spSample (by simp [spSample]) "官" none 0 1

theorem tuneStep_unmatched (l : List YearRow) (lr : ℚ)
    (acc : Dict × Dict × List (String × ℚ)) (a : Annotation)
    (h : ∀ r ∈ l, r.year ≠ a.year) : tuneStep l lr acc a = acc := by
  have hf : l.find? (fun r => r.year == a.year) = none := by
    rw [List.find?_eq_none]
    intro r hr
    simpa using h r hr
  simp [tuneStep, hf]

/-- Claim C8: an annotation whose year matches no YearRecord is skipped
entirely — no adjustment record, the working tables are untouched, and the
surrounding annotations are processed exactly as if it were absent. -/
theorem unmatched_annotation_skipped (l : List YearRow) (pre post : List Annotation)
    (a : Annotation) (lr : ℚ) (h : ∀ r ∈ l, r.year ≠ a.year) :
    tune_ten_god_weights l (pre ++ a :: post) lr = tune_ten_god_weights l (pre ++ post) lr := by
  unfold tune_ten_god_weights
  rw [List.foldl_append, List.foldl_append, List.foldl_cons,
    tuneStep_unmatched l lr _ a h]

/-- Witness for C8: an annotation for 1999 against a single 2021 record. -/
theorem unmatched_annotation_skipped_witness :
    tune_ten_god_weights [rowGuan] [annFar] (1/20) =
      tune_ten_god_weights [rowGuan] [] (1/20) :=
  unmatched_annotation_skipped [rowGuan] [] [] annFar (1/20) (by decide)

theorem dhas_eq_keys (d : Dict) (k : String) :
    dhas d k = (dkeys d).any (fun x => x == k) := by
  induction d with
  | nil => rfl
  | cons p rest ih =>
    simp only [dhas, dkeys, List.any_cons, List.map_cons] at *
    rw [ih]

theorem dset_keys_of_dhas (d : Dict) (k : String) (v : ℚ) (h : dhas d k = true) :
    dkeys (dset d k v) = dkeys d := by
  induction d with
  | nil => simp [dhas] at h
  | cons p rest ih =>
    cases hpk : (p.1 == k) with
    | false =>
      have hr : dhas rest k = true := by
        have := h
        simp only [dhas, List.any_cons, hpk, Bool.false_or] at this
        exact this
      simp only [dset, hpk, Bool.false_eq_true, if_false, dkeys, List.map_cons]
      rw [show List.map (fun p => p.1) (dset rest k v) = dkeys (dset rest k v) from rfl,
        ih hr]
      rfl
    | true =>
      have hk : p.1 = k := by simpa using hpk
      simp only [dset, hpk, if_true]
      simp [dkeys, hk]

theorem tune_adjustments_spec (l : List YearRow) (lr : ℚ) (anns : List Annotation)
    (strong weak : Dict) (adj : List (String × ℚ))
    (hkeys : dkeys strong = dkeys STRONG_TEN_GOD_WEIGHTS) :
    (anns.foldl (tuneStep l lr) (strong, weak, adj)).2.2 =
      adj ++ anns.filterMap (annAdjustment l lr) := by
  induction anns generalizing strong weak adj with
  | nil => simp
  | cons a rest ih =>
    rw [List.foldl_cons, List.filterMap_cons]
    cases hf : l.find? (fun r => r.year == a.year) with
    | none =>
      have h1 : tuneStep l lr (strong, weak, adj) a = (strong, weak, adj) := by
        simp [tuneStep, hf]
      have h2 : annAdjustment l lr a = none := by simp [annAdjustment, hf]
      rw [h1, h2]
      exact ih strong weak adj hkeys
    | some row =>
      by_cases hsh : pyStrip row.shishen = ""
      · have h1 : tuneStep l lr (strong, weak, adj) a = (strong, weak, adj) := by
          simp [tuneStep, hf, hsh]
        have h2 : annAdjustment l lr a = none := by simp [annAdjustment, hf, hsh]
        rw [h1, h2]
        exact ih strong weak adj hkeys
      · have hdh : dhas strong (pyStrip row.shishen) =
            dhas STRONG_TEN_GOD_WEIGHTS (pyStrip row.shishen) := by
          rw [dhas_eq_keys, dhas_eq_keys, hkeys]
        cases hd : dhas STRONG_TEN_GOD_WEIGHTS (pyStrip row.shishen) with
        | false =>
          have h1 : tuneStep l lr (strong, weak, adj) a = (strong, weak, adj) := by
            simp [tuneStep, hf, hsh, hdh.trans hd]
          have h2 : annAdjustment l lr a = none := by
            simp [annAdjustment, hf, hsh, hd]
          rw [h1, h2]
          exact ih strong weak adj hkeys
        | true =>
          have hds : dhas strong (pyStrip row.shishen) = true := hdh.trans hd
          have h1 : tuneStep l lr (strong, weak, adj) a =
              (dset strong (pyStrip row.shishen)
                 (pclamp (dget strong (pyStrip row.shishen) 0 +
                   lr * (a.sentiment * a.intensity))),
               dset weak (pyStrip row.shishen)
                 (pclamp (dget weak (pyStrip row.shishen) 0 +
                   lr * (a.sentiment * a.intensity))),
               adj ++ [(pyStrip row.shishen, lr * (a.sentiment * a.intensity))]) := by
            simp [tuneStep, hf, hsh, hds]
          have h2 : annAdjustment l lr a =
              some (pyStrip row.shishen, lr * (a.sentiment * a.intensity)) := by
            simp [annAdjustment, hf, hsh, hd]
          rw [h1, h2]
          rw [ih _ _ _ (by rw [dset_keys_of_dhas strong _ _ hds]; exact hkeys)]
          simp

/-- Claim C4, amended: the Feedback Tuner appends exactly one
`(actorCode, delta)` record, in annotation-list order, per annotation whose
year matches a YearRecord whose stripped actor code is non-empty AND is a
key of the strong table (unknown codes yield no record and no update); for
every such annotation the delta is added to both the strong-table and
weak-table entries for that code, each result being clamped to
`[-0.8, 0.8]`. -/
theorem tuner_adjustment_records (l : List YearRow) (anns : List Annotation) (lr : ℚ) :
    ((tune_ten_god_weights l anns lr).2.2 = anns.filterMap (annAdjustment l lr)) ∧
    (∀ (a : Annotation) (row : YearRow),
      l.find? (fun r => r.year == a.year) = some row →
      pyStrip row.shishen ≠ "" →
      dhas STRONG_TEN_GOD_WEIGHTS (pyStrip row.shishen) = true →
      tune_ten_god_weights l [a] lr =
        (dset STRONG_TEN_GOD_WEIGHTS (pyStrip row.shishen)
           (pclamp (dget STRONG_TEN_GOD_WEIGHTS (pyStrip row.shishen) 0 +
             lr * (a.sentiment * a.intensity))),
         dset WEAK_TEN_GOD_WEIGHTS (pyStrip row.shishen)
           (pclamp (dget WEAK_TEN_GOD_WEIGHTS (pyStrip row.shishen) 0 +
             lr * (a.sentiment * a.intensity))),
         [(pyStrip row.shishen, lr * (a.sentiment * a.intensity))])) := by
  constructor
  · simpa using
      tune_adjustments_spec l lr anns STRONG_TEN_GOD_WEIGHTS WEAK_TEN_GOD_WEIGHTS [] rfl
  · intro a row hf hsh hd
    unfold tune_ten_god_weights
    rw [List.foldl_cons, List.foldl_nil]
    simp [tuneStep, hf, hsh, hd]

/-- Claim C4, counterexample: the annotation's year 2020 matches `rowX`,
whose actor code "X" is non-empty, yet the tuner neither records an
adjustment nor changes any table, because "X" is not a key of the strong
table — refuting "one record per annotation that matched a YearRecord with a
non-empty actor code". -/
theorem tuner_unknown_code_no_record :
    tune_ten_god_weights [rowX] [annPos] (1/20) =
      (STRONG_TEN_GOD_WEIGHTS, WEAK_TEN_GOD_WEIGHTS, []) := rfl

/-- Witness for C4: a matched 官 annotation updates both tables and records
the single adjustment. -/
theorem tuner_adjustment_records_witness :
    tune_ten_god_weights [rowGuan] [annNeg] (1/20) =
      (dset STRONG_TEN_GOD_WEIGHTS (pyStrip rowGuan.shishen)
         (pclamp (dget STRONG_TEN_GOD_WEIGHTS (pyStrip rowGuan.shishen) 0 +
           1/20 * (annNeg.sentiment * annNeg.intensity))),
       dset WEAK_TEN_GOD_WEIGHTS (pyStrip rowGuan.shishen)
         (pclamp (dget WEAK_TEN_GOD_WEIGHTS (pyStrip rowGuan.shishen) 0 +
           1/20 * (annNeg.sentiment * annNeg.intensity))),
       [(pyStrip rowGuan.shishen, 1/20 * (annNeg.sentiment * annNeg.intensity))]) :=
  (tuner_adjustment_records [rowGuan] [annNeg] (1/20)).2 annNeg rowGuan rfl
    (by decide) (by decide)

theorem storeRead_set_ne (st : Store) (a : Nat) (k : String) (v : ℚ) (i : Nat)
    (h : i ≠ a) : storeRead (setItemAt st a k v) i = storeRead st i := by
  unfold setItemAt storeRead
  simp only [List.getD_eq_getElem?_getD]
  rw [List.getElem?_set_ne (fun he => h he.symm)]

theorem tuneStepStore_preserve (l : List YearRow) (lr : ℚ) (sA wA : Nat)
    (acc : Store × List (String × ℚ)) (a : Annotation) (i : Nat)
    (h1 : i ≠ sA) (h2 : i ≠ wA) :
    storeRead (tuneStepStore l lr sA wA acc a).1 i = storeRead acc.1 i := by
  unfold tuneStepStore
  cases hf : l.find? (fun r => r.year == a.year) with
  | none => rfl
  | some row =>
    by_cases hsh : pyStrip row.shishen = ""
    · simp only [hsh, if_true]
    · simp only [hsh, if_false]
      cases hdh : dhas (storeRead acc.1 sA) (pyStrip row.shishen) with
      | false => simp only [hdh, Bool.false_eq_true, if_false]
      | true =>
        simp only [hdh, if_true]
        rw [storeRead_set_ne _ _ _ _ _ h2, storeRead_set_ne _ _ _ _ _ h1]

theorem tuneFoldStore_preserve (l : List YearRow) (lr : ℚ) (sA wA : Nat)
    (anns : List Annotation) (acc : Store × List (String × ℚ)) (i : Nat)
    (h1 : i ≠ sA) (h2 : i ≠ wA) :
    storeRead (anns.foldl (tuneStepStore l lr sA wA) acc).1 i = storeRead acc.1 i := by
  induction anns generalizing acc with
  | nil => rfl
  | cons a rest ih =>
    rw [List.foldl_cons, ih (tuneStepStore l lr sA wA acc a),
      tuneStepStore_preserve l lr sA wA acc a i h1 h2]

/-- Claim C9: in the heap model, a tuner run that begins with the
module-level default tables at store addresses 0 and 1 writes only to the
two cells it allocates for its working copies, so after it returns the
default tables' contents are unchanged. -/
theorem tuner_never_mutates_defaults (l : List YearRow) (anns : List Annotation) (lr : ℚ) :
    storeRead (tune_ten_god_weights_store l anns lr 0 1
      [STRONG_TEN_GOD_WEIGHTS, WEAK_TEN_GOD_WEIGHTS]).1 0 = STRONG_TEN_GOD_WEIGHTS ∧
    storeRead (tune_ten_god_weights_store l anns lr 0 1
      [STRONG_TEN_GOD_WEIGHTS, WEAK_TEN_GOD_WEIGHTS]).1 1 = WEAK_TEN_GOD_WEIGHTS := by
  constructor
  · show storeRead (anns.foldl (tuneStepStore l lr 2 3)
      ([STRONG_TEN_GOD_WEIGHTS, WEAK_TEN_GOD_WEIGHTS, STRONG_TEN_GOD_WEIGHTS,
        WEAK_TEN_GOD_WEIGHTS], [])).1 0 = STRONG_TEN_GOD_WEIGHTS
    rw [tuneFoldStore_preserve l lr 2 3 anns _ 0 (by omega) (by omega)]
    rfl
  · show storeRead (anns.foldl (tuneStepStore l lr 2 3)
      ([STRONG_TEN_GOD_WEIGHTS, WEAK_TEN_GOD_WEIGHTS, STRONG_TEN_GOD_WEIGHTS,
        WEAK_TEN_GOD_WEIGHTS], [])).1 1 = WEAK_TEN_GOD_WEIGHTS
    rw [tuneFoldStore_preserve l lr 2 3 anns _ 1 (by omega) (by omega)]
    rfl

end BaziLifekline
